import Mathlib

/-!
Shallow embedding of src/uno.py (repository Hello-Uno), a console Uno game
engine, together with theorems settling the claims of the specification.

Modelling conventions, stated once here and referenced below:

The Python file declares an Enum hierarchy: CardColor with subclasses
NormalCardColor (RED, YELLOW, GREEN, BLUE) and BlackCardColor (BLACK), and
CardType with subclasses NumberCardType (N0 .. N9) and SpecialCardType
(SKIP, REVERSE, PLUS2) below ColorCardType, plus BlackCardType (WILDCARD,
PLUS4).  Each hierarchy is modelled as a single inductive type.  A Python
membership test such as card_type in BlackCardType is modelled as
membership among the members declared in that subclass, which is what
CPython computes whenever the tested class declares its members itself.  A
membership test against a class whose members live only in subclasses is
version dependent (false up to CPython 3.11, whose EnumMeta consults only
the empty member map of the class, and true from CPython 3.12, whose
EnumType first checks isinstance) and is modelled with an explicit version
flag.  A qualified access to a subclass member through the parent class,
such as CardColor.BLACK on line 87, raises AttributeError in every CPython
version, because parent enum attribute lookup never sees subclass members;
it is modelled as that error.

A Python == comparison between an Enum member and a plain string is always
False (Enum members compare by identity and never equal their value
string).  The comparisons against string literals that survive in uno.py,
for example other.color == the string black on line 135, are modelled as
constant false tests, each by a named definition documented at its site.

Python ints are modelled as Int where negative values are observable and as
Nat where the source guarantees non-negativity.  List indexing follows
Python semantics, including negative indices.  A raising Python call is
modelled by an outcome constructor carrying the state the caller observes
after the raise; Python exceptions do not roll back mutations already made.
-/

/-- Model of the CardColor Enum hierarchy (src/uno.py lines 16-29):
RED, YELLOW, GREEN, BLUE are the NormalCardColor members and BLACK the
BlackCardColor member. -/
inductive CardColor where
  | RED
  | YELLOW
  | GREEN
  | BLUE
  | BLACK
  deriving DecidableEq, BEq, Repr

/-- Model of the CardType Enum hierarchy (src/uno.py lines 31-60):
N0 .. N9 from NumberCardType, SKIP, REVERSE, PLUS2 from SpecialCardType,
WILDCARD, PLUS4 from BlackCardType. -/
inductive CardType where
  | N0
  | N1
  | N2
  | N3
  | N4
  | N5
  | N6
  | N7
  | N8
  | N9
  | SKIP
  | REVERSE
  | PLUS2
  | WILDCARD
  | PLUS4
  deriving DecidableEq, BEq, Repr

/-- Model of an UnoCard value (src/uno.py lines 73-76): the constructor
stores the attributes color and type.  Note that the stored attribute is
named type, not card_type; the accesses to a card_type attribute elsewhere
in the file raise AttributeError, which the play model reflects. -/
structure UnoCard where
  color : CardColor
  type : CardType
  deriving DecidableEq, BEq, Repr

/-- Python test of equality between a CardColor Enum member and the string
literal black (src/uno.py line 135 and line 284).  An Enum member is never
equal to a str, so the test is constantly false; the definition keeps the
comparison visible at its call sites. -/
def colorEqStrBlack (_c : CardColor) : Bool := false

/-- UnoCard.playable (src/uno.py lines 127-136): the candidate card other is
playable on top of self when the intrinsic colors match, or the types
match, or the candidate color equals the string black; the last test is
dead, see colorEqStrBlack. -/
def UnoCard.playable (self other : UnoCard) : Bool :=
  self.color == other.color || self.type == other.type || colorEqStrBlack other.color

/-- Modelled from the spec, section 4.1: playable(topCard, candidate) is
true iff the color in effect of the top card equals the candidate color, or
the two types are equal, or the candidate color is Black.  Stated on the
color in effect and the type of the top card explicitly. -/
def playableSpec (topColorInEffect : CardColor) (topType : CardType) (cand : UnoCard) : Bool :=
  topColorInEffect == cand.color || topType == cand.type || cand.color == CardColor.BLACK

/-- Exceptions raised by the modelled fragments of src/uno.py. -/
inductive PyExc where
  | invalidColor
  | invalidCard
  | invalidNumberOfCards
  | invalidPlayerIndex
  | notPlayersTurn
  | handIndexError
  | deckIndexError
  | cardNotPlayable
  | nameErrorCOLORS
  | gameOver
  | attrErrorCardType
  | attrErrorCardColorBLACK
  deriving DecidableEq, BEq, Repr

/-- Python test color in CardColor (src/uno.py line 84).  CardColor itself
declares no members (they live in the subclasses NormalCardColor and
BlackCardColor), so the test is version dependent as described in the file
header: false for every color up to CPython 3.11 and true for every color
from CPython 3.12, selected by the py312 flag. -/
def memCardColor (py312 : Bool) (_c : CardColor) : Bool := py312

/-- Python test card_type in BlackCardType (src/uno.py line 87), as written:
BlackCardType declares its own members WILDCARD and PLUS4, so the test is
the same in every CPython version.  In the executed __validate this test is
dead code, since evaluating CardColor.BLACK on the same line raises first;
it is kept to state the intended pairing rule. -/
def memBlackCardType (t : CardType) : Bool :=
  t == CardType.WILDCARD || t == CardType.PLUS4

/-- Python test card_type in ColorCardType (src/uno.py line 88), read as
membership among the members declared below ColorCardType (the ten number
types and the three special types), which is what the CPython 3.12
isinstance branch computes; up to 3.11 the test would be false for every
type.  In the executed __validate this test is dead code, since evaluating
CardColor.BLACK on line 87 raises first; it is kept to state the intended
pairing rule. -/
def memColorCardType (t : CardType) : Bool :=
  [CardType.N0, CardType.N1, CardType.N2, CardType.N3, CardType.N4,
   CardType.N5, CardType.N6, CardType.N7, CardType.N8, CardType.N9,
   CardType.SKIP, CardType.REVERSE, CardType.PLUS2].contains t

/-- The pairing condition written on src/uno.py lines 86-90, read with the
membership tests above: a pair passes when it is not the case that a black
color has a non black type or a non black color has a type outside
ColorCardType.  In the executed program this condition is never evaluated,
see UnoCard.validate; it records the rule the source text expresses and the
spec claims. -/
def pairingCheckIntended (color : CardColor) (card_type : CardType) : Bool :=
  !((color == CardColor.BLACK && !(memBlackCardType card_type)) ||
    (color != CardColor.BLACK && !(memColorCardType card_type)))

/-- UnoCard.__validate (src/uno.py lines 79-90) as executed: when the line
84 membership test fails (every color, up to CPython 3.11) the Invalid
color ValueError of line 85 is raised; otherwise (every color, from CPython
3.12) evaluating CardColor.BLACK on line 87 raises AttributeError before
any comparison or membership test runs, BLACK being declared on the
subclass BlackCardColor only.  The pairing check the line expresses is
therefore dead code in every version, kept as pairingCheckIntended; the
validator always raises and never reaches the Invalid card error of line
90 nor a success. -/
def UnoCard.validate (py312 : Bool) (color : CardColor) (_card_type : CardType) :
    Except PyExc Unit :=
  if !(memCardColor py312 color) then Except.error PyExc.invalidColor
  else Except.error PyExc.attrErrorCardColorBLACK

/-- UnoCard.__init__ (src/uno.py lines 73-76): validate first, then build
the value; on an exception from the validator nothing is assigned and no
card value is produced, which the Except result reflects.  Since the
validator always raises, construction never succeeds in any CPython
version. -/
def UnoCard.init (py312 : Bool) (color : CardColor) (card_type : CardType) :
    Except PyExc UnoCard :=
  match UnoCard.validate py312 color card_type with
  | Except.error e => Except.error e
  | Except.ok _ => Except.ok { color := color, type := card_type }

/-- Helper: an Except result of card construction is a success. -/
def cardOk (r : Except PyExc UnoCard) : Bool :=
  match r with
  | Except.ok _ => true
  | Except.error _ => false

/-- Model of ReversibleCycle (src/uno.py lines 338-388): a list of items, a
current position that is None before the first advance and otherwise stored
reduced modulo the item count by the pos setter, and a direction flag. -/
structure ReversibleCycle (α : Type) where
  _items : List α
  _pos : Option Nat
  _reverse : Bool
  deriving DecidableEq, BEq, Repr

/-- ReversibleCycle.__init__ (src/uno.py lines 360-363). -/
def ReversibleCycle.init {α : Type} (iterable : List α) : ReversibleCycle α :=
  { _items := iterable, _pos := none, _reverse := false }

/-- ReversibleCycle._delta (src/uno.py lines 372-374). -/
def ReversibleCycle.delta {α : Type} (s : ReversibleCycle α) : Int :=
  if s._reverse then -1 else 1

/-- The pos setter (src/uno.py lines 380-382): stores value modulo the item
count.  Python raises ZeroDivisionError on an empty item list; the model is
used only on non empty lists, where Int.emod of the value is non negative
and below the length. -/
def ReversibleCycle.setPos {α : Type} (s : ReversibleCycle α) (value : Int) : ReversibleCycle α :=
  { s with _pos := some ((value % (s._items.length : Int)).toNat) }

/-- ReversibleCycle.__next__ (src/uno.py lines 365-370): on the first call
the position becomes -1 modulo the count when reversed and 0 otherwise; on
later calls the position moves by delta; the item now at the position is
returned (none only for an empty item list). -/
def ReversibleCycle.next {α : Type} (s : ReversibleCycle α) : ReversibleCycle α × Option α :=
  let s2 :=
    match s._pos with
    | none => s.setPos (if s._reverse then -1 else 0)
    | some p => s.setPos ((p : Int) + s.delta)
  (s2, s2._items.get? (s2._pos.getD 0))

/-- ReversibleCycle.reverse (src/uno.py lines 384-388): toggles the
direction flag and nothing else. -/
def ReversibleCycle.reverse {α : Type} (s : ReversibleCycle α) : ReversibleCycle α :=
  { s with _reverse := !s._reverse }

/-- Items returned by n successive advances of a cycle. -/
def cycleTrace {α : Type} (n : Nat) (s : ReversibleCycle α) : List (Option α) :=
  match n with
  | 0 => []
  | k + 1 =>
    let (s2, a) := s.next
    a :: cycleTrace k s2

/-- Model of an UnoPlayer (src/uno.py lines 139-154): a hand of cards and an
optional player id. -/
structure UnoPlayer where
  hand : List UnoCard
  player_id : Option Nat
  deriving DecidableEq, BEq, Repr

/-- UnoPlayer.__init__ (src/uno.py lines 151-154): the constructor assigns
the hand and the id directly; it never invokes UnoPlayer.__validate, so any
card list is accepted. -/
def UnoPlayer.init (cards : List UnoCard) (player_id : Option Nat) : UnoPlayer :=
  { hand := cards, player_id := player_id }

/-- UnoPlayer.__validate (src/uno.py lines 156-165): rejects a hand whose
size differs from 7.  The element type check of the source is vacuous in
the model, since the list is typed over UnoCard.  The source defines this
method but never calls it. -/
def UnoPlayer.validate (cards : List UnoCard) : Except PyExc Unit :=
  if cards.length ≠ 7 then Except.error PyExc.invalidNumberOfCards
  else Except.ok ()

/-- Modelled from the commented out constant COLORS (src/uno.py line 7),
which _create_deck and play still reference; each color string is read as
the corresponding Enum member introduced by the refactor. -/
def COLORS : List CardColor :=
  [CardColor.RED, CardColor.YELLOW, CardColor.GREEN, CardColor.BLUE]

/-- Modelled from the commented out constant NUMBERS (src/uno.py line 9):
the digits 0 to 9 followed by 1 to 9. -/
def NUMBERS : List CardType :=
  [CardType.N0, CardType.N1, CardType.N2, CardType.N3, CardType.N4,
   CardType.N5, CardType.N6, CardType.N7, CardType.N8, CardType.N9,
   CardType.N1, CardType.N2, CardType.N3, CardType.N4, CardType.N5,
   CardType.N6, CardType.N7, CardType.N8, CardType.N9]

/-- Modelled from the commented out constant SPECIAL_CARD_TYPES (src/uno.py
line 10). -/
def SPECIAL_CARD_TYPES : List CardType :=
  [CardType.SKIP, CardType.REVERSE, CardType.PLUS2]

/-- Modelled from the commented out constant COLOR_CARD_TYPES (src/uno.py
line 11): NUMBERS plus two copies of the special types. -/
def COLOR_CARD_TYPES : List CardType :=
  NUMBERS ++ SPECIAL_CARD_TYPES ++ SPECIAL_CARD_TYPES

/-- Modelled from the commented out constant BLACK_CARD_TYPES (src/uno.py
line 12). -/
def BLACK_CARD_TYPES : List CardType := [CardType.WILDCARD, CardType.PLUS4]

/-- Model of itertools.product over two lists: all pairs in row major
order. -/
def pyProduct {α β : Type} (l1 : List α) (l2 : List β) : List (α × β) :=
  l1.flatMap fun a => l2.map fun b => (a, b)

/-- product(COLORS, COLOR_CARD_TYPES) (src/uno.py line 221). -/
def color_cards : List (CardColor × CardType) := pyProduct COLORS COLOR_CARD_TYPES

/-- product(repeat(black, 4), BLACK_CARD_TYPES) (src/uno.py line 222). -/
def black_cards : List (CardColor × CardType) :=
  pyProduct (List.replicate 4 CardColor.BLACK) BLACK_CARD_TYPES

/-- chain(color_cards, black_cards) (src/uno.py line 223). -/
def all_cards : List (CardColor × CardType) := color_cards ++ black_cards

/-- UnoGame._create_deck with random False (src/uno.py lines 216-229), with
the commented out constants above restored: build a card for every pair and
return the reversed list.  As written the source raises NameError here,
since COLORS and the other constants are commented out.  The random True
branch applies random.shuffle; shuffling is modelled in Reachable below by
allowing any starting deck of 108 cards. -/
def createDeckUnshuffled : List UnoCard :=
  (all_cards.map fun p => { color := p.1, type := p.2 : UnoCard }).reverse

/-- Model of n successive deck.pop() calls (src/uno.py line 236): each pop
removes the last element; the popped cards are listed in pop order together
with the remaining deck.  Python raises IndexError on an exhausted list;
during dealing the deck always holds enough cards, and the model simply
stops popping. -/
def popN {α : Type} (n : Nat) (l : List α) : List α × List α :=
  match n with
  | 0 => ([], l)
  | k + 1 => (l.getLast?.toList ++ (popN k l.dropLast).1, (popN k l.dropLast).2)

/-- The player construction loop of UnoGame.__init__ (src/uno.py lines
203-205): deal 7 cards to each player in turn from the shared deck,
numbering players from nextId upward. -/
def dealAux (deck : List UnoCard) (nextId : Nat) (count : Nat) :
    List UnoPlayer × List UnoCard :=
  match count with
  | 0 => ([], deck)
  | k + 1 =>
    (UnoPlayer.init (popN 7 deck).1 (some nextId) ::
       (dealAux (popN 7 deck).2 (nextId + 1) k).1,
     (dealAux (popN 7 deck).2 (nextId + 1) k).2)

/-- Model of the UnoGame state (src/uno.py lines 187-208).  In the source
the ReversibleCycle stores the players list itself, aliased with
self.players, and self._current_player is an object reference into that
list; the model keeps the players once, keeps the cycle position and
direction, and keeps currentPlayer as the index of the referenced player
(list elements are distinct objects, so the identity comparison of the
source is the index comparison). -/
structure UnoGame where
  deck : List UnoCard
  players : List UnoPlayer
  cyclePos : Option Nat
  cycleRev : Bool
  currentPlayer : Nat
  winner : Option Nat
  deriving DecidableEq, BEq, Repr

/-- UnoGame.__next__ (src/uno.py lines 210-214) together with
ReversibleCycle.__next__ on the player cycle: move the position by the
direction delta modulo the player count (to the starting position on the
very first advance) and make the player at the new position current. -/
def UnoGame.nextTurn (s : UnoGame) : UnoGame :=
  let n : Int := s.players.length
  let pos : Nat :=
    match s.cyclePos with
    | none => ((if s.cycleRev then (-1 : Int) else 0) % n).toNat
    | some p => (((p : Int) + (if s.cycleRev then (-1 : Int) else 1)) % n).toNat
  { s with cyclePos := some pos, currentPlayer := pos }

/-- UnoGame.__init__ (src/uno.py lines 197-208) on an explicit starting
deck: deal 7 cards to each of n players, build the cycle over the players
and advance it once to select player 0, leave the winner unset.  The
currentPlayer value before that first advance has no counterpart in the
source (the attribute is only created by the advance) and is immediately
overwritten. -/
def UnoGame.initFrom (deck0 : List UnoCard) (n : Nat) : UnoGame :=
  UnoGame.nextTurn
    { deck := (dealAux deck0 0 n).2, players := (dealAux deck0 0 n).1,
      cyclePos := none, cycleRev := false, currentPlayer := 0, winner := none }

/-- UnoGame.is_active (src/uno.py lines 242-244): all players hold at least
one card. -/
def UnoGame.is_active (s : UnoGame) : Bool :=
  s.players.all fun p => decide (0 < p.hand.length)

/-- Normalisation of a Python list index against a list of length n: a
negative index counts from the end. -/
def pyIdx (n : Nat) (i : Int) : Nat :=
  if 0 ≤ i then i.toNat else (i + (n : Int)).toNat

/-- Python list indexing l[i]: negative indices count from the end; an
index out of range raises IndexError, modelled by none. -/
def pyGet {α : Type} (l : List α) (i : Int) : Option α :=
  if -(l.length : Int) ≤ i then l.get? (pyIdx l.length i) else none

/-- Python list.pop(i): the removed element and the remaining list, or none
when the index is out of range. -/
def pyPop {α : Type} (l : List α) (i : Int) : Option (α × List α) :=
  match pyGet l i with
  | none => none
  | some a => some (a, l.eraseIdx (pyIdx l.length i))

/-- Outcome of a call into the engine: a normal return or a raised
exception, each carrying the state the caller observes afterwards (Python
does not roll back mutations made before a raise). -/
inductive PlayOutcome where
  | ok (s : UnoGame)
  | raised (e : PyExc) (s : UnoGame)
  deriving DecidableEq, BEq, Repr

/-- State observed after an engine call, whether it returned or raised. -/
def PlayOutcome.stateOf : PlayOutcome → UnoGame
  | PlayOutcome.ok s => s
  | PlayOutcome.raised _ s => s

/-- UnoGame._pick_up (src/uno.py lines 326-335): pop n cards from the front
of the deck and append them to the hand of the player at index p (the
object pl in the source).  When the deck holds fewer than n cards the list
comprehension raises IndexError after having popped the whole deck; the
cards already popped are held only by the discarded temporary list and are
lost.  Sum.inl is a normal return, Sum.inr the raising outcome. -/
def UnoGame.pickUp (s : UnoGame) (p : Nat) (pl : UnoPlayer) (n : Nat) : UnoGame ⊕ UnoGame :=
  if n ≤ s.deck.length then
    Sum.inl { s with deck := s.deck.drop n,
                     players := s.players.set p { pl with hand := pl.hand ++ s.deck.take n } }
  else Sum.inr { s with deck := s.deck.drop n }

/-- UnoGame.play (src/uno.py lines 254-314).  The isinstance check of line
266 cannot fire, player being typed Int.  A draw move (card None) picks one
card from the bottom of the deck and advances the turn.  For a card move,
after validation the selected card moves from the hand onto the deck (lines
292-293); the following read of played_card.card_type on line 296 raises
AttributeError, because UnoCard stores the attribute as type, so the effect
resolution, the winner assignment and the final turn advance of lines
297-314 are unreachable.  The guard of line 284 compares an Enum member
with a string and is constantly false (see colorEqStrBlack); were it true,
evaluating the name COLORS on line 285 would raise NameError, its
definition being commented out. -/
def UnoGame.play (s : UnoGame) (player : Int) (card : Option Int)
    (_new_color : Option String) : PlayOutcome :=
  if player < 0 || (s.players.length : Int) ≤ player then
    PlayOutcome.raised PyExc.invalidPlayerIndex s
  else
    match s.players.get? player.toNat with
    | none => PlayOutcome.raised PyExc.invalidPlayerIndex s
    | some pl =>
      if s.currentPlayer ≠ player.toNat then PlayOutcome.raised PyExc.notPlayersTurn s
      else
        match card with
        | none =>
          match s.pickUp player.toNat pl 1 with
          | Sum.inl s1 => PlayOutcome.ok s1.nextTurn
          | Sum.inr s1 => PlayOutcome.raised PyExc.deckIndexError s1
        | some ci =>
          match pyGet pl.hand ci with
          | none => PlayOutcome.raised PyExc.handIndexError s
          | some c =>
            match s.deck.getLast? with
            | none => PlayOutcome.raised PyExc.deckIndexError s
            | some cur =>
              if !(cur.playable c) then PlayOutcome.raised PyExc.cardNotPlayable s
              else if colorEqStrBlack c.color then PlayOutcome.raised PyExc.nameErrorCOLORS s
              else if !(s.is_active) then PlayOutcome.raised PyExc.gameOver s
              else
                match pyPop pl.hand ci with
                | none => PlayOutcome.raised PyExc.handIndexError s
                | some (played, hand2) =>
                  PlayOutcome.raised PyExc.attrErrorCardType
                    { s with players := s.players.set player.toNat { pl with hand := hand2 },
                             deck := s.deck ++ [played] }

/-- Total hand sizes of a player list. -/
def sumHands (ps : List UnoPlayer) : Nat := (ps.map fun p => p.hand.length).sum

/-- Cards in the deck plus cards in every hand. -/
def UnoGame.totalCards (s : UnoGame) : Nat := s.deck.length + sumHands s.players

/-- Reachable engine states: a game constructed by UnoGame.__init__ from
any 108 card starting deck (covering the unshuffled deck and any shuffle of
it) with a valid player count, closed under arbitrary play calls whatever
their outcome. -/
inductive Reachable : UnoGame → Prop where
  | init (deck0 : List UnoCard) (n : Nat) (hlen : deck0.length = 108)
      (h2 : 2 ≤ n) (h15 : n ≤ 15) : Reachable (UnoGame.initFrom deck0 n)
  | step (s : UnoGame) (player : Int) (card : Option Int) (new_color : Option String)
      (hs : Reachable s) :
      Reachable (PlayOutcome.stateOf (UnoGame.play s player card new_color))

/-- The unshuffled two player game, UnoGame(2, random=False). -/
def demoGame : UnoGame := UnoGame.initFrom createDeckUnshuffled 2

/-- One play call by player 0 naming the first card of their hand, keeping
the observed state whatever the outcome. -/
def playSelfStep (s : UnoGame) : UnoGame := (UnoGame.play s 0 (some 0) none).stateOf

/-- The state of the unshuffled two player game after player 0 has played
seven cards in a row; each of those calls raises AttributeError on line 296
after moving the card, so the turn never advances away from player 0 and
the hand empties. -/
def demoAfter7 : UnoGame :=
  playSelfStep (playSelfStep (playSelfStep (playSelfStep
    (playSelfStep (playSelfStep (playSelfStep demoGame))))))

/-- An in progress state in which the current player holds a single black
PLUS4 card and the current card is a black WILDCARD. -/
def wildFourState : UnoGame :=
  { deck := [{ color := CardColor.BLACK, type := CardType.WILDCARD }],
    players :=
      [UnoPlayer.init [{ color := CardColor.BLACK, type := CardType.PLUS4 }] (some 0),
       UnoPlayer.init [{ color := CardColor.RED, type := CardType.N0 }] (some 1)],
    cyclePos := some 0, cycleRev := false, currentPlayer := 0, winner := none }

/-- Modelled from the spec, section 3: the multiplicity of each card in a
full deck.  Each of the four colors has N0 once, N1 to N9 twice and each
special type twice; black WILDCARD and PLUS4 have four copies each; every
other pairing does not occur. -/
def specCardCount (c : CardColor) (t : CardType) : Nat :=
  match c, t with
  | CardColor.BLACK, CardType.WILDCARD => 4
  | CardColor.BLACK, CardType.PLUS4 => 4
  | CardColor.BLACK, _ => 0
  | _, CardType.N0 => 1
  | _, CardType.WILDCARD => 0
  | _, CardType.PLUS4 => 0
  | _, _ => 2

/-- Helper: -1 modulo a positive Nat n, taken as a Nat, is n - 1. -/
theorem negOne_emod_toNat (n : Nat) (h : 0 < n) : ((-1 : Int) % (n : Int)).toNat = n - 1 := by
  have h1 : ((-1 : Int) + (n : Int) * 1) % (n : Int) = (-1 : Int) % (n : Int) :=
    Int.add_mul_emod_self_left (-1) (n : Int) 1
  have h2 : ((-1 : Int) + (n : Int) * 1) = (n : Int) - 1 := by ring
  have h3 : ((n : Int) - 1) % (n : Int) = (n : Int) - 1 :=
    Int.emod_eq_of_lt (by omega) (by omega)
  rw [h2, h3] at h1
  omega

/-- Claim C1 (code bug evaluation): on top card (RED, N0) and candidate
(BLACK, WILDCARD) the source playable returns false, because the test
other.color == the string black on line 135 compares an Enum member to a
str and is always false; the spec predicate returns true for the same
input, as the claim states a black candidate is always playable. -/
theorem claim1_eval :
    UnoCard.playable { color := CardColor.RED, type := CardType.N0 }
      { color := CardColor.BLACK, type := CardType.WILDCARD } = false ∧
    playableSpec CardColor.RED CardType.N0
      { color := CardColor.BLACK, type := CardType.WILDCARD } = true := by
  decide

/-- Claim C4 (code bug evaluation): card construction never succeeds for
any pair in either CPython version mode, and in particular the pair
(BLACK, WILDCARD) the claim says must succeed raises the Invalid color
ValueError up to CPython 3.11 and AttributeError from 3.12 — never the
claimed pairing error.  The pairing rule written on lines 86-90, which the
executed validator never reaches, accepts exactly the pairs the claim
describes: success iff the color being BLACK is equivalent to the type
being WILDCARD or PLUS4. -/
theorem claim4_eval :
    (∀ (py312 : Bool) (c : CardColor) (t : CardType),
      cardOk (UnoCard.init py312 c t) = false) ∧
    UnoCard.init false CardColor.BLACK CardType.WILDCARD =
      Except.error PyExc.invalidColor ∧
    UnoCard.init true CardColor.BLACK CardType.WILDCARD =
      Except.error PyExc.attrErrorCardColorBLACK ∧
    (∀ (c : CardColor) (t : CardType),
      pairingCheckIntended c t = true ↔
        ((c = CardColor.BLACK) ↔ (t = CardType.WILDCARD ∨ t = CardType.PLUS4))) := by
  refine ⟨?_, rfl, rfl, ?_⟩
  · intro py312 c t
    cases py312 <;> rfl
  · intro c t
    cases c <;> cases t <;> decide

/-- Claim C6: for a freshly constructed cycle over a non empty item list,
the first advance with no prior reversal returns the item at index 0; if
reverse is called before any advance, the first advance returns the item at
the last index; for three players the reversed sequence starts 2, 1, 0, 2;
and reverse itself never changes the stored position. -/
theorem claim6 {α : Type} (items : List α) (h : items ≠ []) :
    (ReversibleCycle.init items).next.2 = items.get? 0 ∧
    ((ReversibleCycle.init items).reverse).next.2 = items.get? (items.length - 1) ∧
    (∀ s : ReversibleCycle α, s.reverse._pos = s._pos) ∧
    cycleTrace 4 ((ReversibleCycle.init (α := Nat) [0, 1, 2]).reverse) =
      [some 2, some 1, some 0, some 2] := by
  have hlen : 0 < items.length := List.length_pos.mpr h
  refine ⟨?_, ?_, ?_, ?_⟩
  · simp [ReversibleCycle.init, ReversibleCycle.next, ReversibleCycle.setPos,
      ReversibleCycle.reverse, Int.zero_emod]
  · simp only [ReversibleCycle.init, ReversibleCycle.next, ReversibleCycle.setPos,
      ReversibleCycle.reverse]
    simp [negOne_emod_toNat items.length hlen]
  · intro s
    rfl
  · decide

/-- Witness for claim C6 at the concrete item list [10, 20, 30]. -/
theorem claim6_witness :
    (ReversibleCycle.init [10, 20, 30]).next.2 = [10, 20, 30].get? 0 ∧
    ((ReversibleCycle.init [10, 20, 30]).reverse).next.2 =
      [10, 20, 30].get? ([10, 20, 30].length - 1) ∧
    (∀ s : ReversibleCycle Nat, s.reverse._pos = s._pos) ∧
    cycleTrace 4 ((ReversibleCycle.init (α := Nat) [0, 1, 2]).reverse) =
      [some 2, some 1, some 0, some 2] :=
  claim6 [10, 20, 30] (by decide)

/-- Claim C10: reversing a cycle twice returns exactly the original state,
so every subsequent sequence of advances returns the same items as if
neither reverse had happened. -/
theorem claim10 {α : Type} (s : ReversibleCycle α) (n : Nat) :
    s.reverse.reverse = s ∧ cycleTrace n (s.reverse.reverse) = cycleTrace n s := by
  have h : s.reverse.reverse = s := by
    cases s
    simp [ReversibleCycle.reverse]
  exact ⟨h, by rw [h]⟩

/-- Popping n cards from the end of a list conserves cards: the popped part
and the rest together have the length of the original list. -/
theorem popN_length {α : Type} (n : Nat) (l : List α) :
    (popN n l).1.length + (popN n l).2.length = l.length := by
  induction n generalizing l with
  | zero => simp [popN]
  | succ k ih =>
    have hd := ih l.dropLast
    rw [List.length_dropLast] at hd
    cases hl : l.getLast? with
    | none =>
      have he : l = [] := List.getLast?_eq_none_iff.mp hl
      subst he
      simpa [popN] using ih []
    | some x =>
      have hne : l ≠ [] := by
        intro he
        rw [he] at hl
        simp at hl
      have hpos : 0 < l.length := List.length_pos.mpr hne
      simp only [popN, hl, Option.toList_some, List.length_append, List.length_cons,
        List.length_nil]
      omega

/-- Dealing hands conserves cards: the dealt hands plus the remaining deck
have the length of the starting deck. -/
theorem dealAux_length (deck : List UnoCard) (i k : Nat) :
    sumHands (dealAux deck i k).1 + (dealAux deck i k).2.length = deck.length := by
  induction k generalizing deck i with
  | zero => simp [dealAux, sumHands]
  | succ k ih =>
    have hp := popN_length 7 deck
    have hr := ih (popN 7 deck).2 (i + 1)
    simp only [dealAux, sumHands, UnoPlayer.init, List.map_cons, List.sum_cons] at *
    omega

/-- The turn advance touches only the cycle position and the current player
index, never a card. -/
theorem nextTurn_totalCards (s : UnoGame) : s.nextTurn.totalCards = s.totalCards := rfl

/-- A freshly constructed game holds exactly the cards of its starting
deck. -/
theorem initFrom_totalCards (deck0 : List UnoCard) (n : Nat) :
    (UnoGame.initFrom deck0 n).totalCards = deck0.length := by
  have hd := dealAux_length deck0 0 n
  unfold UnoGame.initFrom
  rw [nextTurn_totalCards]
  simp only [UnoGame.totalCards]
  omega

/-- Replacing the player at a valid index changes the total hand count by
the difference of the two hands. -/
theorem sumHands_set (ps : List UnoPlayer) (p : Nat) (pl pl2 : UnoPlayer)
    (h : ps.get? p = some pl) :
    sumHands (ps.set p pl2) + pl.hand.length = sumHands ps + pl2.hand.length := by
  induction ps generalizing p with
  | nil => simp at h
  | cons a tl ih =>
    cases p with
    | zero =>
      simp only [List.get?_cons_zero, Option.some.injEq] at h
      subst h
      simp only [List.set_cons_zero, sumHands, List.map_cons, List.sum_cons]
      omega
    | succ q =>
      simp only [List.get?_cons_succ] at h
      have hq := ih q h
      simp only [List.set_cons_succ, sumHands, List.map_cons, List.sum_cons] at *
      omega

/-- A successful Python pop at any index removes exactly one element. -/
theorem pyPop_length {α : Type} (l : List α) (i : Int) (a : α) (l2 : List α)
    (h : pyPop l i = some (a, l2)) : l2.length + 1 = l.length := by
  unfold pyPop pyGet at h
  by_cases hb : -(l.length : Int) ≤ i
  · rw [if_pos hb] at h
    cases hg : l.get? (pyIdx l.length i) with
    | none => rw [hg] at h; cases h
    | some b =>
      rw [hg] at h
      simp only [Option.some.injEq, Prod.mk.injEq] at h
      obtain ⟨-, hl2⟩ := h
      have hlt : pyIdx l.length i < l.length := by
        rcases List.get?_eq_some.mp hg with ⟨hh, -⟩
        exact hh
      rw [← hl2, List.length_eraseIdx_of_lt hlt]
      omega
  · rw [if_neg hb] at h
    cases h

/-- Every play call conserves the total card count, whether it returns or
raises: validation failures change nothing, a draw moves one card from the
deck to a hand (and on an empty deck pops nothing before raising), and a
card move transfers the selected card from the hand onto the deck before
the AttributeError of line 296 stops the call. -/
theorem play_totalCards (s : UnoGame) (player : Int) (card : Option Int)
    (nc : Option String) :
    (UnoGame.play s player card nc).stateOf.totalCards = s.totalCards := by
  unfold UnoGame.play UnoGame.pickUp
  split
  · rfl
  · split
    · rfl
    · rename_i hrange pl hget
      split
      · rfl
      · split
        · split
          · rename_i s1 heq
            rw [PlayOutcome.stateOf, nextTurn_totalCards]
            split at heq
            · rename_i hdeck
              cases heq
              have hset := sumHands_set s.players player.toNat pl
                { pl with hand := pl.hand ++ s.deck.take 1 } hget
              simp only [UnoGame.totalCards, List.length_drop, List.length_append,
                List.length_take] at *
              omega
            · cases heq
          · rename_i s1 heq
            rw [PlayOutcome.stateOf]
            split at heq
            · cases heq
            · rename_i hdeck
              cases heq
              simp only [UnoGame.totalCards, List.length_drop] at *
              omega
        · split
          · rfl
          · split
            · rfl
            · split
              · rfl
              · split
                · rfl
                · split
                  · rfl
                  · split
                    · rfl
                    · rename_i played hand2 hpop
                      rw [PlayOutcome.stateOf]
                      have hlen := pyPop_length pl.hand _ played hand2 hpop
                      have hset := sumHands_set s.players player.toNat pl
                        { pl with hand := hand2 } hget
                      simp only [UnoGame.totalCards, List.length_append,
                        List.length_cons, List.length_nil] at *
                      omega

/-- Claim C2: in every reachable game state, whatever construction and
sequence of play calls produced it, including calls that raise, the cards
in the deck and in all hands total 108. -/
theorem claim2 (s : UnoGame) (h : Reachable s) : s.totalCards = 108 := by
  induction h with
  | init deck0 n hlen h2 h15 => rw [initFrom_totalCards, hlen]
  | step s player card new_color hs ih => rw [play_totalCards, ih]

/-- Witness for claim C2: the freshly built unshuffled two player game is
reachable and holds 108 cards. -/
theorem claim2_witness : (UnoGame.initFrom createDeckUnshuffled 2).totalCards = 108 :=
  claim2 (UnoGame.initFrom createDeckUnshuffled 2)
    (Reachable.init createDeckUnshuffled 2 (by decide) (by decide) (by decide))

/-- Claim C8: a play call that raises one of the validation errors of the
source — player index out of range, not the callers turn, hand index out of
range, card not playable, or the would be color choice validation — leaves
the observed state exactly equal to the input state.  In the source the
color choice branch is dead (see colorEqStrBlack), so no color choice
failure ever occurs; every other listed error is raised before any
mutation. -/
theorem claim8 (s : UnoGame) (player : Int) (card : Option Int) (new_color : Option String)
    (e : PyExc) (s2 : UnoGame)
    (h : UnoGame.play s player card new_color = PlayOutcome.raised e s2)
    (he : e = PyExc.invalidPlayerIndex ∨ e = PyExc.notPlayersTurn ∨
          e = PyExc.handIndexError ∨ e = PyExc.cardNotPlayable ∨
          e = PyExc.nameErrorCOLORS) : s2 = s := by
  unfold UnoGame.play at h
  split at h
  · cases h; rfl
  · split at h
    · cases h; rfl
    · split at h
      · cases h; rfl
      · split at h
        · split at h
          · cases h
          · cases h
            rcases he with h1 | h1 | h1 | h1 | h1 <;> cases h1
        · split at h
          · cases h; rfl
          · split at h
            · cases h; rfl
            · split at h
              · cases h; rfl
              · split at h
                · cases h; rfl
                · split at h
                  · cases h; rfl
                  · split at h
                    · cases h; rfl
                    · cases h
                      rcases he with h1 | h1 | h1 | h1 | h1 <;> cases h1

/-- Witness for claim C8: calling play for player 1 of the fresh two player
game, whose current player is 0, raises the not your turn error and leaves
the state unchanged. -/
theorem claim8_witness : demoGame = demoGame :=
  claim8 demoGame 1 none none PyExc.notPlayersTurn demoGame (by decide)
    (Or.inr (Or.inl rfl))

/-- Claim C3 (code bug evaluation): in the unshuffled two player game,
player 0 can play their seven red cards in a row, because each call raises
AttributeError on line 296 after moving the card and before any turn
advance.  The seventh play empties the hand, yet the winner stays unset,
player 0 stays current, and the engine is not terminal: a further draw move
by player 0 is accepted, refills the hand and advances the turn. -/
theorem claim3_eval :
    ((demoAfter7.players.get? 0).map UnoPlayer.hand = some []) ∧
    demoAfter7.winner = none ∧
    demoAfter7.currentPlayer = 0 ∧
    demoAfter7.is_active = false ∧
    (UnoGame.play demoAfter7 0 none none).stateOf.currentPlayer = 1 ∧
    ((UnoGame.play demoAfter7 0 none none).stateOf.players.get? 0).map
      (fun p => p.hand.length) = some 1 := by
  decide

/-- Claim C5 (supporting theorem): with the commented out constants
restored, the unshuffled deck enumerates exactly 108 cards with the
multiplicities the spec describes.  As written the source raises NameError
in _create_deck instead, since COLORS and its companions are commented
out. -/
theorem claim5_eval :
    createDeckUnshuffled.length = 108 ∧
    ∀ (c : CardColor) (t : CardType),
      createDeckUnshuffled.count { color := c, type := t } = specCardCount c t := by
  refine ⟨by decide, ?_⟩
  intro c t
  cases c <;> cases t <;> decide

/-- Claim C7 (code bug evaluation): in an in progress state whose current
player holds only a black PLUS4 and whose current card is a black WILDCARD,
playing the PLUS4 with no color choice is not rejected with a missing color
choice error; the call moves the card onto the deck and then raises
AttributeError on line 296, so no color in effect is recorded, the victim
draws nothing and no player is skipped. -/
theorem claim7_eval :
    wildFourState.is_active = true ∧
    wildFourState.winner = none ∧
    UnoGame.play wildFourState 0 (some 0) none =
      PlayOutcome.raised PyExc.attrErrorCardType
        { deck := [{ color := CardColor.BLACK, type := CardType.WILDCARD },
                   { color := CardColor.BLACK, type := CardType.PLUS4 }],
          players := [UnoPlayer.init [] (some 0),
                      UnoPlayer.init [{ color := CardColor.RED, type := CardType.N0 }] (some 1)],
          cyclePos := some 0, cycleRev := false, currentPlayer := 0, winner := none } := by
  decide

/-- Claim C9 (code bug evaluation): the player constructor accepts an empty
hand, because UnoPlayer.__init__ never calls UnoPlayer.__validate, while
that validator itself rejects any hand that does not hold exactly 7
cards. -/
theorem claim9_eval :
    (UnoPlayer.init [] none).hand = [] ∧
    UnoPlayer.validate [] = Except.error PyExc.invalidNumberOfCards ∧
    UnoPlayer.validate (List.replicate 7 { color := CardColor.RED, type := CardType.N0 }) =
      Except.ok () :=
  ⟨rfl, rfl, rfl⟩
